import Mathlib

/-!
Verification development for the Souz-Tech Bling dashboard repository.

The repository contains two implementations of the same analytics pipeline:

* `src/bling-dashboard/src/` — `data_processor.py` (DuckDB/pandas KPI engine),
  `auth_handler.py` (OAuth2 token lifecycle), `bling_client.py` (paginated
  fetcher with tenacity retry);
* `src/bling-dashboard/bling-saas/services/` — `analytics_service.py`
  (pandas KPI functions) and `bling_service.py` (token lifecycle).

Every definition below is a shallow embedding of one function of those files,
named after it.  Timestamps are modelled as integers (whole days for the
analytics functions, whole seconds for the token lifecycle); monetary values
and quantities are rationals.  Rows whose date failed to parse are dropped by
the sources before any computation, so embedded row types carry parsed values
only.
-/

namespace SouzTech

/-! ### Schema-level model of `DataProcessor` (data_processor.py)

`DF` records the shape of a pandas DataFrame: its column labels and its
number of rows.  `DataFrame.empty` is true when either axis has length 0. -/

/-- Shape of a pandas DataFrame: column labels and row count. -/
structure DF where
  cols : List String
  nrows : Nat
deriving DecidableEq

/-- pandas `DataFrame.empty`: true when either axis has length zero. -/
def DF.isEmpty (df : DF) : Bool := df.nrows == 0 || df.cols.length == 0

/-- One element of the `itens` list of a raw sale record. -/
structure SaleItem where
  prodId : Nat
  prodNome : String
  quantidade : ℚ
  valor : ℚ
deriving DecidableEq

/-- One raw sales record fetched from the API (`pedidos/vendas`). -/
structure RawSale where
  saleId : Nat
  data : Int
  numero : Nat
  total : ℚ
  itens : List SaleItem
deriving DecidableEq

/-- One raw product record (`produtos`). -/
structure ProductRec where
  id : Nat
  precoCusto : ℚ
  nome : String
deriving DecidableEq

/-- One raw stock record (`estoques/saldos`), flattened. -/
structure StockRec where
  prodId : Nat
  saldoFisico : ℚ
deriving DecidableEq

/-- The column list `DataProcessor._normalize_sales` declares for empty input
(data_processor.py lines 16-28). -/
def declaredSalesCols : List String :=
  ["id", "data", "numero", "total", "produto.id", "produto.nome", "quantidade", "valor"]

/-- Columns produced by `pd.json_normalize(sales, record_path=["itens"], meta=[...])`
on non-empty input: the item columns first, then the broadcast meta columns. -/
def explodedSalesCols : List String :=
  ["quantidade", "valor", "produto.id", "produto.nome", "id", "data", "numero", "total"]

/-- `DataProcessor._normalize_sales`: empty input yields a zero-row frame with
the declared schema; non-empty input explodes each sale into one row per line
item, broadcasting the order-level meta fields. -/
def normalizeSales (sales : List RawSale) : DF :=
  if sales = [] then { cols := declaredSalesCols, nrows := 0 }
  else { cols := explodedSalesCols, nrows := (sales.map (fun s => s.itens.length)).sum }

/-- Fallback product schema installed by `DataProcessor.process` line 50. -/
def productsCols : List String := ["id", "precoCusto", "nome"]

/-- Fallback stock schema installed by `DataProcessor.process` line 52. -/
def stockCols : List String := ["produto.id", "saldoFisico"]

/-- `pd.DataFrame(products)`: an empty record list gives a frame with zero
rows and zero columns; otherwise the columns come from the record keys. -/
def rawProductsDF (products : List ProductRec) : DF :=
  { cols := if products = [] then [] else productsCols, nrows := products.length }

/-- `DataProcessor.process` lines 46-50: build the product frame and replace an
empty one by a zero-row frame with the declared schema. -/
def normalizeProducts (products : List ProductRec) : DF :=
  let df := rawProductsDF products
  if df.isEmpty then { cols := productsCols, nrows := 0 } else df

/-- `pd.DataFrame(stock)` shape. -/
def rawStockDF (stock : List StockRec) : DF :=
  { cols := if stock = [] then [] else stockCols, nrows := stock.length }

/-- `DataProcessor.process` lines 47-52: build the stock frame and replace an
empty one by a zero-row frame with the declared schema. -/
def normalizeStock (stock : List StockRec) : DF :=
  let df := rawStockDF stock
  if df.isEmpty then { cols := stockCols, nrows := 0 } else df

/-- Columns of the enriched frame returned by `DataProcessor.process` on the
non-empty path: `SELECT s.*` plus the joined and derived columns. -/
def enrichedCols : List String :=
  explodedSalesCols ++
    ["preco_custo", "saldo_fisico", "valor_venda", "margem_unitaria",
     "media_venda_diaria", "dias_cobertura"]

/-- Schema behaviour of `DataProcessor.process` (data_processor.py lines
44-105): when the normalized sales frame is empty the bare `pd.DataFrame()`
(zero rows, zero columns) is returned at line 55; otherwise the enriched frame
keeps one row per sales line item (products and stock carry unique ids) and
adds the joined and derived columns.  Products and stock only influence row
values, never the schema. -/
def processSchema (sales : List RawSale) (products : List ProductRec)
    (stock : List StockRec) : DF :=
  let dfSales := normalizeSales sales
  let _dfProducts := normalizeProducts products
  let _dfStock := normalizeStock stock
  if dfSales.isEmpty then { cols := [], nrows := 0 }
  else { cols := enrichedCols, nrows := dfSales.nrows }

/-! ### Value-level model of the `DataProcessor` KPI derivations

One row of the enriched frame `df` inside `DataProcessor.process`, after the
left joins and numeric coercions (lines 60-82): a sales line item with its
calendar day, quantity and joined physical stock balance (`fillna(0)` applied).
The day is the timestamp truncated to a calendar day, as an integer. -/

/-- One enriched sales row (product id, calendar day, quantity, joined stock
balance). -/
structure EnrichedRow where
  prodId : Nat
  day : Int
  quantidade : ℚ
  saldoFisico : ℚ
deriving DecidableEq

/-- The trailing 90-day window filter
`df[df["data"] >= pd.Timestamp.utcnow() - pd.Timedelta(days=90)]`
(line 83), with `now` the current day. -/
def windowRows (now : Int) (df : List EnrichedRow) : List EnrichedRow :=
  df.filter (fun r => decide (now - 90 ≤ r.day))

/-- Rows of one product (the `groupby("produto.id")` fibre). -/
def prodRows (p : Nat) (df : List EnrichedRow) : List EnrichedRow :=
  df.filter (fun r => decide (r.prodId = p))

/-- The distinct calendar days on which product `p` has rows in `w`
(the day component of the `groupby(["produto.id", date])` keys, line 86). -/
def salesDays (p : Nat) (w : List EnrichedRow) : List Int :=
  ((prodRows p w).map (fun r => r.day)).dedup

/-- Quantity of product `p` sold on day `d` within `w`
(the per-group `sum()` of line 87). -/
def daySum (p : Nat) (d : Int) (w : List EnrichedRow) : ℚ :=
  (((prodRows p w).filter (fun r => decide (r.day = d))).map (fun r => r.quantidade)).sum

/-- `media_venda_diaria` for product `p`: the `groupby("produto.id").mean()`
of the per-day sums (lines 91-94), merged back with `fillna(0)` (line 97) for
products without window rows. -/
def mediaVendaDiaria (now : Int) (p : Nat) (df : List EnrichedRow) : ℚ :=
  let w := windowRows now df
  let days := salesDays p w
  if days.length = 0 then 0
  else ((days.map (fun d => daySum p d w)).sum) / (days.length : ℚ)

/-- `dias_cobertura` of one row (lines 100-105): balance divided by average
daily sales when the average is positive, else `None`. -/
def diasCobertura (saldo media : ℚ) : Option ℚ :=
  if media > 0 then some (saldo / media) else none

/-- The `media_venda_diaria` value carried by row `r` of the enriched frame. -/
def rowMediaVendaDiaria (now : Int) (df : List EnrichedRow) (r : EnrichedRow) : ℚ :=
  mediaVendaDiaria now r.prodId df

/-- The `dias_cobertura` value carried by row `r` of the enriched frame. -/
def rowDiasCobertura (now : Int) (df : List EnrichedRow) (r : EnrichedRow) : Option ℚ :=
  diasCobertura r.saldoFisico (rowMediaVendaDiaria now df r)

/-- `qtde_vendida` of product `p`: total quantity sold in the trailing 90-day
window (`estoque_parado`, lines 111-115), `fillna(0)` for absent products. -/
def qtdeVendida (now : Int) (p : Nat) (df : List EnrichedRow) : ℚ :=
  ((prodRows p (windowRows now df)).map (fun r => r.quantidade)).sum

/-- `DataProcessor.estoque_parado` (lines 107-120): on an empty frame return
it unchanged, else keep the rows whose product has positive physical balance
and zero quantity sold in the window. -/
def estoqueParado (now : Int) (df : List EnrichedRow) : List EnrichedRow :=
  if df = [] then df
  else df.filter (fun r =>
    decide (r.saldoFisico > 0) && decide (qtdeVendida now r.prodId df = 0))

/-! ### Model of `analytics_service.py` (bling-saas)

Orders carry the lower-cased status; rows whose `created_at` failed to parse
are dropped by `_ensure_datetime` before every computation, so `createdAt`
is always a valid day number. -/

/-- One order row of `orders_df`. -/
structure Order where
  orderId : Nat
  customerId : Nat
  sku : Nat
  createdAt : Int
  status : String
  qty : ℚ
  total : ℚ
deriving DecidableEq

/-- `_safe_div`: numerator over denominator, or 0 when the denominator is
falsy (zero). -/
def safeDiv (numerator denominator : ℚ) : ℚ :=
  if denominator ≠ 0 then numerator / denominator else 0

/-- The `orders[orders["status"] != "cancelado"]` filter applied by every
analytics function. -/
def validOrders (orders : List Order) : List Order :=
  orders.filter (fun o => decide (o.status ≠ "cancelado"))

/-- Non-cancelled orders inside the trailing 90-day window
(`build_commander_kpis` line 162). -/
def last90Orders (now : Int) (orders : List Order) : List Order :=
  (validOrders orders).filter (fun o => decide (now - 90 ≤ o.createdAt))

/-- Orders of one sku (a `groupby("sku")` fibre). -/
def skuOrders (sku : Nat) (l : List Order) : List Order :=
  l.filter (fun o => decide (o.sku = sku))

/-- `build_commander_kpis` line 163:
`daily_sales = last_90_sales.groupby("sku")["qty"].sum() / 90.0` — the 90-day
quantity divided by 90 calendar days. -/
def commanderDailyQty (now : Int) (sku : Nat) (orders : List Order) : ℚ :=
  ((skuOrders sku (last90Orders now orders)).map (fun o => o.qty)).sum / 90

/-- `build_commander_kpis` lines 168-171: `coverage_days` is
`_safe_div(saldo, daily_qty)` when `daily_qty > 0`, else the sentinel 999. -/
def commanderCoverage (saldo dailyQty : ℚ) : ℚ :=
  if dailyQty > 0 then safeDiv saldo dailyQty else 999

/-- Maximum of a non-empty integer list (`groupby(...).max()`). -/
def lastSale (sku : Nat) (orders : List Order) : Option Int :=
  ((skuOrders sku (validOrders orders)).map (fun o => o.createdAt)).max?

/-- `calculate_days_without_sale` (analytics_service.py lines 19-33): days
since the last non-cancelled sale of the sku; a sku never sold gets
`last_sale` filled with `now`, hence 0 days without sale. -/
def daysWithoutSale (now : Int) (sku : Nat) (orders : List Order) : Int :=
  match lastSale sku orders with
  | none => 0
  | some t => now - t

/-- One row of `stock_df`. -/
structure StockRow where
  sku : Nat
  saldo : ℚ
  cost : ℚ
deriving DecidableEq

/-- Left-merge lookup of the stock balance of a sku, `fillna(0)`. -/
def saldoOf (sku : Nat) (stock : List StockRow) : ℚ :=
  match stock.find? (fun s => decide (s.sku = sku)) with
  | none => 0
  | some s => s.saldo

/-- Left-merge lookup of the unit cost of a sku, `fillna(0)`. -/
def costOf (sku : Nat) (stock : List StockRow) : ℚ :=
  match stock.find? (fun s => decide (s.sku = sku)) with
  | none => 0
  | some s => s.cost

/-- `build_commander_kpis` lines 190-194: the dead-stock selection keeps the
products whose `days_without_sale` exceeds 90; the physical balance is not
consulted. -/
def commanderDeadSkus (now : Int) (orders : List Order) (productSkus : List Nat) : List Nat :=
  productSkus.filter (fun sku => decide (90 < daysWithoutSale now sku orders))

/-- `build_commander_kpis` lines 196-199:
`dead_value = (dead_stock["saldo"] * dead_stock["cost"]).sum()`. -/
def commanderDeadValue (now : Int) (orders : List Order) (productSkus : List Nat)
    (stock : List StockRow) : ℚ :=
  ((commanderDeadSkus now orders productSkus).map
    (fun sku => saldoOf sku stock * costOf sku stock)).sum

/-- One row of `revenue_by_sku`, the input of `_classify_abc`. -/
structure RevRow where
  sku : Nat
  revenue : ℚ
deriving DecidableEq

/-- One output row of `_classify_abc`. -/
structure AbcRow where
  sku : Nat
  revenue : ℚ
  cumShare : ℚ
  abc : String
deriving DecidableEq

/-- The label lambda of `_classify_abc` line 90:
A while the cumulative share is at most 80 percent, B while at most
95 percent, else C. -/
def abcLabel (cumShare : ℚ) : String :=
  if cumShare ≤ 4/5 then "A" else if cumShare ≤ 19/20 then "B" else "C"

/-- Cumulative-share pass of `_classify_abc` lines 87-92: walk the sorted rows
keeping the running revenue sum `acc`, emitting the cumulative share over
`denom` and its label. -/
def abcRows (denom : ℚ) : ℚ → List RevRow → List AbcRow
  | _, [] => []
  | acc, r :: rest =>
    { sku := r.sku, revenue := r.revenue,
      cumShare := (acc + r.revenue) / denom,
      abc := abcLabel ((acc + r.revenue) / denom) } :: abcRows denom (acc + r.revenue) rest

/-- Total revenue of the table (`revenue_by_sku["revenue"].sum()`). -/
def totalRevenue (l : List RevRow) : ℚ := (l.map (fun r => r.revenue)).sum

/-- `_classify_abc` (analytics_service.py lines 85-93): sort by descending
revenue, then cumulative share over `max(sum, 1)` with the A/B/C thresholds. -/
def classifyAbc (l : List RevRow) : List AbcRow :=
  let sorted := List.insertionSort (fun a b => b.revenue ≤ a.revenue) l
  abcRows (max (totalRevenue l) 1) 0 sorted

/-- Timestamps of the orders of one customer (the `groupby("customer_id")`
fibre used by the `transform("min")`). -/
def customerTimes (orders : List Order) (cid : Nat) : List Int :=
  (orders.filter (fun o => decide (o.customerId = cid))).map (fun o => o.createdAt)

/-- `first_purchase`: earliest order timestamp of the customer within the
set (`classify_customer_recurrence` line 77). -/
def firstPurchase (orders : List Order) (cid : Nat) : Option Int :=
  (customerTimes orders cid).min?

/-- The row label of `classify_customer_recurrence` lines 78-81: a row is a
new-customer row exactly when its timestamp equals the customer minimum. -/
def customerTypeLabel (orders : List Order) (o : Order) : String :=
  if firstPurchase orders o.customerId = some o.createdAt
  then "Novos Clientes" else "Recorrentes"

/-- `classify_customer_recurrence` (lines 71-82): sort by `created_at`, then
label every row by comparing its timestamp with the customer minimum. -/
def classifyCustomerRecurrence (orders : List Order) : List (Order × String) :=
  let sorted := List.insertionSort (fun a b => a.createdAt ≤ b.createdAt) orders
  sorted.map (fun o => (o, customerTypeLabel sorted o))

/-! ### Model of the token lifecycle (auth_handler.py and bling_service.py)

Times are in whole seconds. -/

/-- Decoded JSON body of a token-endpoint response. -/
structure TokenResponse where
  accessToken : String
  refreshToken : Option String
  expiresIn : Int
deriving DecidableEq

/-- An HTTP response of the token endpoint: status code plus decoded body. -/
structure TokenHttpResp where
  status : Nat
  body : TokenResponse
deriving DecidableEq

/-- The persisted credential record (`tokens.json`). -/
structure TokenData where
  accessToken : String
  refreshToken : String
  expiresIn : Int
  expiryTimestamp : Int
deriving DecidableEq

/-- `BlingAuth._refresh_token` (auth_handler.py lines 62-86):
`raise_for_status` turns any status of at least 400 into an HTTPError; on
success the new expiry is `int(time.time()) + expires_in - 60`, and a missing
`refresh_token` field keeps the old one. -/
def refreshTokenExchange (now : Int) (oldRefresh : String) (resp : TokenHttpResp) :
    Except String TokenData :=
  if 400 ≤ resp.status then .error "HTTPError"
  else
    .ok { accessToken := resp.body.accessToken,
          refreshToken := resp.body.refreshToken.getD oldRefresh,
          expiresIn := resp.body.expiresIn,
          expiryTimestamp := now + resp.body.expiresIn - 60 }

/-- `BlingAuth.get_valid_token` (auth_handler.py lines 88-102): reject empty
stored tokens; refresh and persist when `expiry_timestamp <= now`, else
return the cached access token with the stored record untouched.  The second
component of the result is the stored record after the call. -/
def getValidToken (now : Int) (stored : TokenData) (resp : TokenHttpResp) :
    Except String (String × TokenData) :=
  if stored.accessToken = "" ∨ stored.refreshToken = "" then .error "RuntimeError"
  else if stored.expiryTimestamp ≤ now then
    match refreshTokenExchange now stored.refreshToken resp with
    | .error e => .error e
    | .ok td => .ok (td.accessToken, td)
  else .ok (stored.accessToken, stored)

/-- `bling_service._token_expires_at_from_seconds` (lines 29-30):
`datetime.now() + timedelta(seconds=expires_in)` — no safety margin. -/
def tokenExpiresAtFromSeconds (now : Int) (expiresIn : Int) : Int :=
  now + expiresIn

/-- `bling_service.refresh_token` (lines 33-57): reject a missing refresh
token; any status of at least 400 raises `BlingAuthError`; a falsy (absent or
empty) `refresh_token` field keeps the old value; a missing access token
raises; otherwise return the triple persisted by `ensure_valid_token`. -/
def saasRefreshToken (now : Int) (oldRefresh : String) (resp : TokenHttpResp) :
    Except String (String × String × Int) :=
  if oldRefresh = "" then .error "BlingAuthError"
  else if 400 ≤ resp.status then .error "BlingAuthError"
  else
    let newRefresh :=
      match resp.body.refreshToken with
      | some r => if r = "" then oldRefresh else r
      | none => oldRefresh
    if resp.body.accessToken = "" then .error "BlingAuthError"
    else .ok (resp.body.accessToken, newRefresh,
              tokenExpiresAtFromSeconds now resp.body.expiresIn)

/-- `bling_service.is_token_expiring` (lines 95-101): a missing expiry is
expiring; otherwise expiring when `expires_at <= now + minutes` (minutes as
seconds here; the source default is 10 minutes). -/
def isTokenExpiring (now : Int) (minutes : Int) (expiresAt : Option Int) : Bool :=
  match expiresAt with
  | none => true
  | some e => decide (e ≤ now + minutes * 60)

/-- `bling_service.ensure_valid_token` (lines 109-121) performs a refresh
exactly when `is_token_expiring` holds with the default 10-minute margin. -/
def ensureValidTokenRefreshes (now : Int) (expiresAt : Option Int) : Bool :=
  isTokenExpiring now 10 expiresAt

/-! ### Model of `BlingClient` (bling_client.py) -/

/-- What one physical attempt of `BlingClient._get` produces: either an HTTP
response (status plus decoded `data` items) or a non-HTTP exception. -/
inductive AttemptResult where
  | resp (status : Nat) (items : List Nat)
  | exc
deriving DecidableEq

/-- Failure of a page fetch. -/
inductive FetchError where
  | httpError (status : Nat)
  | otherError
deriving DecidableEq

/-- One un-retried execution of the body of `BlingClient._get` (lines 25-34):
a 429 response hits the explicit `raise_for_status` branch, any other status
of at least 400 raises through the generic `raise_for_status`, a non-HTTP
exception propagates as itself. -/
def singleGet : AttemptResult → Except FetchError (List Nat)
  | .resp s items =>
    if s = 429 then .error (.httpError 429)
    else if 400 ≤ s then .error (.httpError s)
    else .ok items
  | .exc => .error .otherError

/-- tenacity `wait_exponential(multiplier=1, min=1, max=10)` after completed
attempt `n`: `max(max(0, min), min(multiplier * 2 ** (n - 1), max))`. -/
def waitExponential (n : Nat) : ℚ :=
  max (max 0 1) (min (1 * 2 ^ (n - 1)) 10)

/-- The tenacity retry loop around `_get` with
`retry_if_exception_type(HTTPError)`, `stop_after_attempt(5)` and `reraise`:
attempt number, remaining retries, and the oracle giving the outcome of each
physical attempt.  Returns the final result, the number of attempts made, and
the list of backoff delays slept. -/
def retryGetAux (oracle : Nat → AttemptResult) (attemptNo fuel : Nat) :
    Except FetchError (List Nat) × Nat × List ℚ :=
  match singleGet (oracle attemptNo), fuel with
    | .ok v, _ => (.ok v, attemptNo, [])
    | .error (.httpError s), 0 => (.error (.httpError s), attemptNo, [])
    | .error (.httpError _), f + 1 =>
      let next := retryGetAux oracle (attemptNo + 1) f
      (next.1, next.2.1, waitExponential attemptNo :: next.2.2)
    | .error .otherError, _ => (.error .otherError, attemptNo, [])

/-- `BlingClient._get` with its retry decoration: first attempt is number 1,
at most 4 retries after it (5 attempts in total). -/
def retryGet (oracle : Nat → AttemptResult) :
    Except FetchError (List Nat) × Nat × List ℚ :=
  retryGetAux oracle 1 4

/-- The pagination loop of `BlingClient.get_all_data` (lines 36-54) over the
sequence of per-page `_get` outcomes: stop with the accumulated items on an
empty page (or when the finite page sequence is exhausted, which models the
vendor returning an empty page next); any page failure propagates, discarding
the accumulator. -/
def getAllDataLoop : List Nat → List (Except FetchError (List Nat)) →
    Except FetchError (List Nat)
  | acc, [] => .ok acc
  | _, .error e :: _ => .error e
  | acc, .ok items :: rest =>
    if items = [] then .ok acc else getAllDataLoop (acc ++ items) rest

/-- `BlingClient.get_all_data`: run the pagination loop from an empty
accumulator. -/
def getAllData (pages : List (Except FetchError (List Nat))) :
    Except FetchError (List Nat) :=
  getAllDataLoop [] pages

/-! ### General lemmas about grouped sums and list minima -/

theorem sum_map_add_split {α : Type} (f g : α → ℚ) :
    ∀ l : List α, (l.map (fun x => f x + g x)).sum = (l.map f).sum + (l.map g).sum := by
  intro l
  induction l with
  | nil => simp
  | cons a t ih => simp only [List.map_cons, List.sum_cons, ih]; ring

theorem sum_map_ite_single {β : Type} [DecidableEq β] (b : β) (c : ℚ) :
    ∀ D : List β, D.Nodup →
      (D.map (fun d => if b = d then c else 0)).sum = if b ∈ D then c else 0 := by
  intro D
  induction D with
  | nil => simp
  | cons d rest ih =>
    intro hnd
    rcases List.nodup_cons.mp hnd with ⟨hd, hrest⟩
    by_cases h : b = d
    · subst h
      simp [ih hrest, hd]
    · simp [h, ih hrest]

/-- Summing the per-key fibre sums over the distinct keys of a list gives the
total sum: the correctness of a `groupby(key).sum()` followed by a global
aggregation. -/
theorem sum_fiber_dedup {α β : Type} [DecidableEq β] (key : α → β) (val : α → ℚ) :
    ∀ l : List α,
      (((l.map key).dedup).map
        (fun d => ((l.filter (fun x => decide (key x = d))).map val).sum)).sum
      = (l.map val).sum := by
  intro l
  induction l with
  | nil => simp
  | cons a t ih =>
    have hstep : ∀ d : β,
        (((a :: t).filter (fun x => decide (key x = d))).map val).sum
          = (if key a = d then val a else 0)
            + ((t.filter (fun x => decide (key x = d))).map val).sum := by
      intro d
      by_cases h : key a = d
      · simp [List.filter_cons, h]
      · simp [List.filter_cons, h]
    by_cases hmem : key a ∈ t.map key
    · have hD : ((a :: t).map key).dedup = (t.map key).dedup := by
        rw [List.map_cons, List.dedup_cons_of_mem hmem]
      rw [hD, List.map_congr_left (fun d _ => hstep d),
        sum_map_add_split (fun d => if key a = d then val a else 0)
          (fun d => ((t.filter (fun x => decide (key x = d))).map val).sum),
        sum_map_ite_single (key a) (val a) _ (List.nodup_dedup _),
        if_pos (List.mem_dedup.mpr hmem), ih]
      simp
    · have hD : ((a :: t).map key).dedup = key a :: (t.map key).dedup := by
        rw [List.map_cons, List.dedup_cons_of_not_mem hmem]
      have hfib : t.filter (fun x => decide (key x = key a)) = [] := by
        rw [List.filter_eq_nil_iff]
        intro x hx
        simp only [decide_eq_true_eq]
        intro hkey
        exact hmem (hkey ▸ List.mem_map_of_mem key hx)
      rw [hD, List.map_cons, List.sum_cons, hstep (key a), if_pos rfl, hfib,
        List.map_congr_left (fun d _ => hstep d),
        sum_map_add_split (fun d => if key a = d then val a else 0)
          (fun d => ((t.filter (fun x => decide (key x = d))).map val).sum),
        sum_map_ite_single (key a) (val a) _ (List.nodup_dedup _),
        if_neg (fun hc => hmem (List.mem_dedup.mp hc)), ih]
      simp

theorem int_min?_eq_some_iff {a : ℤ} {xs : List ℤ} :
    xs.min? = some a ↔ a ∈ xs ∧ ∀ b ∈ xs, a ≤ b :=
  @List.min?_eq_some_iff ℤ _ _ _ ⟨fun h1 h2 => le_antisymm h1 h2⟩
    (fun _ => le_refl _) (fun _ _ => min_choice _ _) (fun _ _ _ => le_min_iff) _

theorem min?_eq_of_perm {l₁ l₂ : List ℤ} (h : l₁.Perm l₂) : l₁.min? = l₂.min? := by
  cases e : l₂.min? with
  | none =>
    rw [List.min?_eq_none_iff] at e
    subst e
    rw [List.min?_eq_none_iff]
    exact h.eq_nil
  | some m =>
    rw [int_min?_eq_some_iff] at e ⊢
    exact ⟨h.mem_iff.mpr e.1, fun b hb => e.2 b (h.mem_iff.mp hb)⟩

/-! ### Claim theorems -/

/-- C9: for each record kind (sales, products, stock), normalizing an empty
input record list yields a table with zero rows that still carries the full
declared column set of the kind, never a zero-column table. -/
theorem c9_empty_normalize_keeps_schema :
    normalizeSales [] = { cols := declaredSalesCols, nrows := 0 }
    ∧ normalizeProducts [] = { cols := productsCols, nrows := 0 }
    ∧ normalizeStock [] = { cols := stockCols, nrows := 0 }
    ∧ declaredSalesCols ≠ [] ∧ productsCols ≠ [] ∧ stockCols ≠ [] := by
  refine ⟨rfl, rfl, rfl, ?_, ?_, ?_⟩ <;> decide

/-- C10: calling `DataProcessor.process` with an empty sales record list
returns the completely empty frame — zero rows and zero columns, none of the
derived fields — regardless of the products and stock inputs. -/
theorem c10_empty_sales_empty_frame (products : List ProductRec) (stock : List StockRec) :
    processSchema [] products stock = { cols := [], nrows := 0 } := rfl

/-- C4 (amended): in `BlingAuth._refresh_token` a successful exchange stores
`expiry_timestamp = now + expires_in - 60` and an HTTP error raises; in
`bling_service.refresh_token` a successful exchange instead stores
`expires_at = now + expires_in`, with no 60-second margin. -/
theorem c4_expiry_margin (now : Int) (oldR : String) (resp : TokenHttpResp) :
    (resp.status < 400 →
      refreshTokenExchange now oldR resp =
        .ok { accessToken := resp.body.accessToken,
              refreshToken := resp.body.refreshToken.getD oldR,
              expiresIn := resp.body.expiresIn,
              expiryTimestamp := now + resp.body.expiresIn - 60 })
    ∧ (400 ≤ resp.status → refreshTokenExchange now oldR resp = .error "HTTPError")
    ∧ (∀ a r e, saasRefreshToken now oldR resp = .ok (a, r, e) →
        e = now + resp.body.expiresIn) := by
  refine ⟨?_, ?_, ?_⟩
  · intro h
    simp only [refreshTokenExchange, if_neg (by omega : ¬ 400 ≤ resp.status)]
  · intro h
    simp only [refreshTokenExchange, if_pos h]
  · intro a r e h
    by_cases h1 : oldR = ""
    · simp [saasRefreshToken, h1] at h
    · by_cases h2 : 400 ≤ resp.status
      · simp [saasRefreshToken, h1, h2] at h
      · by_cases h3 : resp.body.accessToken = ""
        · simp [saasRefreshToken, h1, h2, h3] at h
        · simp [saasRefreshToken, h1, h2, h3, tokenExpiresAtFromSeconds] at h
          exact h.2.2.symm

/-- Witness for C4: a refresh exchange at time 1000 with `expires_in = 3600`
persists `expiry_timestamp = 1000 + 3600 - 60 = 4540` in the auth handler. -/
theorem c4_witness :
    refreshTokenExchange 1000 "old" ⟨200, ⟨"acc", some "new", 3600⟩⟩ =
      .ok ⟨"acc", "new", 3600, 4540⟩ := by
  have h := (c4_expiry_margin 1000 "old" ⟨200, ⟨"acc", some "new", 3600⟩⟩).1 (by norm_num)
  rw [h]
  rfl

/-- Counterexample for C4: the bling-saas refresh with `expires_in = 3600` at
time 1000 stores expiry 4600, not `now + expires_in - 60 = 4540`. -/
theorem c4_counterexample :
    saasRefreshToken 1000 "old" ⟨200, ⟨"acc", some "new", 3600⟩⟩ = .ok ("acc", "new", 4600)
    ∧ (4600 : Int) ≠ 1000 + 3600 - 60 := by
  exact ⟨rfl, by decide⟩

/-- C5 (amended): `BlingAuth.get_valid_token` refreshes exactly when the
stored expiry is at most `now` (the boundary `expiry = now` is treated as
expired) and otherwise returns the cached access token with the stored record
untouched; `bling_service.is_token_expiring` instead reports expiring already
when the expiry is within 10 minutes (600 seconds) of `now`. -/
theorem c5_refresh_boundary (now : Int) (stored : TokenData) (resp : TokenHttpResp)
    (hA : stored.accessToken ≠ "") (hR : stored.refreshToken ≠ "") :
    (now < stored.expiryTimestamp →
        getValidToken now stored resp = .ok (stored.accessToken, stored))
    ∧ (stored.expiryTimestamp ≤ now →
        getValidToken now stored resp =
          match refreshTokenExchange now stored.refreshToken resp with
          | .error e => .error e
          | .ok td => .ok (td.accessToken, td))
    ∧ (isTokenExpiring now 10 (some stored.expiryTimestamp) = true
        ↔ stored.expiryTimestamp ≤ now + 600) := by
  refine ⟨?_, ?_, ?_⟩
  · intro h
    rw [getValidToken, if_neg (by tauto), if_neg (by omega)]
  · intro h
    rw [getValidToken, if_neg (by tauto), if_pos h]
  · simp only [isTokenExpiring, decide_eq_true_eq]
    omega

/-- Witness for C5: a stored expiry exactly equal to now (100) triggers a
refresh, and the refreshed record is persisted. -/
theorem c5_witness :
    getValidToken 100 ⟨"acc", "ref", 3600, 100⟩ ⟨200, ⟨"newacc", some "newref", 3600⟩⟩
      = .ok ("newacc", ⟨"newacc", "newref", 3600, 3640⟩) := by
  have h := (c5_refresh_boundary 100 ⟨"acc", "ref", 3600, 100⟩
      ⟨200, ⟨"newacc", some "newref", 3600⟩⟩ (by decide) (by decide)).2.1 (by decide)
  rw [h]
  rfl

/-- Counterexample for C5: with expiry 1300 and now 1000 the bling-saas
refresher already refreshes (10-minute margin), although the token is not yet
expired. -/
theorem c5_counterexample :
    ensureValidTokenRefreshes 1000 (some 1300) = true ∧ ¬ ((1300 : Int) ≤ 1000) := by
  decide

/-- C2 (amended): in `DataProcessor.process`, `dias_cobertura` of a row is
`balance / media_venda_diaria` when the average is positive and null when it
is zero; in `build_commander_kpis`, `coverage_days` of a sku with zero daily
quantity is instead the finite sentinel 999. -/
theorem c2_coverage (now : Int) (df : List EnrichedRow) (r : EnrichedRow)
    (saldo dailyQty : ℚ) :
    (0 < rowMediaVendaDiaria now df r →
        rowDiasCobertura now df r = some (r.saldoFisico / rowMediaVendaDiaria now df r))
    ∧ (rowMediaVendaDiaria now df r = 0 → rowDiasCobertura now df r = none)
    ∧ (0 < dailyQty → commanderCoverage saldo dailyQty = saldo / dailyQty)
    ∧ (dailyQty = 0 → commanderCoverage saldo dailyQty = 999) := by
  refine ⟨?_, ?_, ?_, ?_⟩
  · intro h
    simp only [rowDiasCobertura, diasCobertura, if_pos h]
  · intro h
    simp [rowDiasCobertura, diasCobertura, h]
  · intro h
    simp only [commanderCoverage, if_pos h, safeDiv, if_pos (ne_of_gt h)]
  · intro h
    simp [commanderCoverage, h]

/-- Witness for C2: a product selling 4 units on its single observed day has
coverage `20 / 4 = 5`; a sku with zero daily quantity gets sentinel 999 in
the commander KPIs. -/
theorem c2_witness :
    rowDiasCobertura 100 [⟨1, 95, 4, 20⟩] ⟨1, 95, 4, 20⟩ = some 5
    ∧ commanderCoverage 10 0 = 999 := by
  have h3 : salesDays 1 (windowRows 100 [⟨1, 95, 4, 20⟩]) = [95] := by decide
  have h2 : prodRows 1 (windowRows 100 [⟨1, 95, 4, 20⟩]) = [⟨1, 95, 4, 20⟩] := by decide
  have h4 : daySum 1 95 (windowRows 100 [⟨1, 95, 4, 20⟩]) = 4 := by
    simp [daySum, h2]
  have hm : rowMediaVendaDiaria 100 [⟨1, 95, 4, 20⟩] ⟨1, 95, 4, 20⟩ = 4 := by
    simp [rowMediaVendaDiaria, mediaVendaDiaria, h3, h4]
  constructor
  · have h := (c2_coverage 100 [⟨1, 95, 4, 20⟩] ⟨1, 95, 4, 20⟩ 0 1).1 (by rw [hm]; norm_num)
    rw [h, hm]
    norm_num
  · exact (c2_coverage 0 [] ⟨0, 0, 0, 0⟩ 10 0).2.2.2 rfl

/-- Counterexample for C2: `build_commander_kpis` represents the coverage of a
sku with `daily_qty = 0` as the large finite number 999 rather than null. -/
theorem c2_counterexample : commanderCoverage 7 0 = 999 ∧ (999 : ℚ) ≠ 0 := by
  constructor
  · rfl
  · norm_num

/-- C6 (amended): `DataProcessor.estoque_parado` keeps exactly the enriched
rows whose product has positive physical balance and zero quantity sold in
the window (so a product classified at all must have at least one sales row);
`build_commander_kpis` instead selects dead stock by `days_without_sale > 90`,
without requiring a positive balance. -/
theorem c6_dead_stock (now : Int) (df : List EnrichedRow) (r : EnrichedRow)
    (sku : Nat) (orders : List Order) (products : List Nat) :
    (r ∈ estoqueParado now df ↔
        r ∈ df ∧ 0 < r.saldoFisico ∧ qtdeVendida now r.prodId df = 0)
    ∧ (sku ∈ commanderDeadSkus now orders products ↔
        sku ∈ products ∧ 90 < daysWithoutSale now sku orders) := by
  constructor
  · by_cases hdf : df = []
    · subst hdf
      simp [estoqueParado]
    · simp [estoqueParado, hdf, List.mem_filter, and_assoc]
  · simp [commanderDeadSkus, List.mem_filter]

/-- Counterexample for C6: in `build_commander_kpis` a product with balance 10
and zero sales in the window (never sold at all) has `days_without_sale = 0`,
is not classified as dead stock, and contributes nothing to `dead_value`
instead of `10 × unit_cost = 50`. -/
theorem c6_counterexample :
    ((skuOrders 1 (last90Orders 100 ([] : List Order))).map Order.qty).sum = 0
    ∧ saldoOf 1 [⟨1, 10, 5⟩] = 10
    ∧ commanderDeadSkus 100 [] [1] = []
    ∧ commanderDeadValue 100 [] [1] [⟨1, 10, 5⟩] = 0
    ∧ (10 : ℚ) * 5 ≠ 0 := by
  refine ⟨rfl, rfl, rfl, rfl, by norm_num⟩

/-- C1 (amended): in `DataProcessor.process`, `media_venda_diaria` of a
product with window rows on at least one distinct day equals the total window
quantity of the product divided by the number of distinct observed selling
days; `build_commander_kpis` instead divides the 90-day total by 90 calendar
days (see the counterexample). -/
theorem c1_avg_daily_sales (now : Int) (p : Nat) (df : List EnrichedRow)
    (h : salesDays p (windowRows now df) ≠ []) :
    mediaVendaDiaria now p df
      = ((prodRows p (windowRows now df)).map (fun r => r.quantidade)).sum
        / ((salesDays p (windowRows now df)).length : ℚ) := by
  have hlen : ¬ (salesDays p (windowRows now df)).length = 0 := by
    simpa [List.length_eq_zero] using h
  have hsum := sum_fiber_dedup (fun r : EnrichedRow => r.day)
      (fun r : EnrichedRow => r.quantidade) (prodRows p (windowRows now df))
  simp only [mediaVendaDiaria, if_neg hlen]
  congr 1

/-- Witness for C1: three sales of quantities 2, 3, 5 on three distinct days
inside the window give an average of `(2 + 3 + 5) / 3 = 10 / 3`. -/
theorem c1_witness :
    mediaVendaDiaria 50 1 [⟨1, 10, 2, 20⟩, ⟨1, 20, 3, 20⟩, ⟨1, 30, 5, 20⟩] = 10 / 3 := by
  have hsd : salesDays 1 (windowRows 50 [⟨1, 10, 2, 20⟩, ⟨1, 20, 3, 20⟩, ⟨1, 30, 5, 20⟩])
      = [10, 20, 30] := by decide
  have hpr : prodRows 1 (windowRows 50 [⟨1, 10, 2, 20⟩, ⟨1, 20, 3, 20⟩, ⟨1, 30, 5, 20⟩])
      = [⟨1, 10, 2, 20⟩, ⟨1, 20, 3, 20⟩, ⟨1, 30, 5, 20⟩] := by decide
  have h := c1_avg_daily_sales 50 1 [⟨1, 10, 2, 20⟩, ⟨1, 20, 3, 20⟩, ⟨1, 30, 5, 20⟩]
      (by rw [hsd]; simp)
  rw [h, hpr, hsd]
  norm_num

/-- Counterexample for C1: one sku selling 90 units on a single distinct day
within the window; the claimed value is `90 / 1 = 90` but the commander KPI
daily rate is `90 / 90 = 1`. -/
theorem c1_counterexample :
    commanderDailyQty 100 1 [⟨1, 1, 1, 100, "pago", 90, 900⟩] = 1
    ∧ ((skuOrders 1 (last90Orders 100 [⟨1, 1, 1, 100, "pago", 90, 900⟩])).map
        (fun o => o.createdAt)).dedup.length = 1
    ∧ ((skuOrders 1 (last90Orders 100 [⟨1, 1, 1, 100, "pago", 90, 900⟩])).map
        (fun o => o.qty)).sum = 90
    ∧ (1 : ℚ) ≠ 90 := by
  have hsk : skuOrders 1 (last90Orders 100 [⟨1, 1, 1, 100, "pago", 90, 900⟩])
      = [⟨1, 1, 1, 100, "pago", 90, 900⟩] := by decide
  refine ⟨?_, ?_, ?_, by norm_num⟩
  · simp only [commanderDailyQty, hsk, List.map_cons, List.map_nil, List.sum_cons,
      List.sum_nil]
    norm_num
  · rw [hsk]
    decide
  · rw [hsk]
    simp

/-! Instances and lemmas for the ABC classification. -/

instance : IsTotal RevRow (fun a b => b.revenue ≤ a.revenue) :=
  ⟨fun a b => le_total b.revenue a.revenue⟩

instance : IsTrans RevRow (fun a b => b.revenue ≤ a.revenue) :=
  ⟨fun _ _ _ hab hbc => le_trans hbc hab⟩

theorem abcLabel_eq_A_iff {cs : ℚ} : abcLabel cs = "A" ↔ cs ≤ 4/5 := by
  unfold abcLabel
  by_cases h : cs ≤ 4/5
  · simp [h]
  · by_cases h2 : cs ≤ 19/20 <;> simp [h, h2]

theorem abcLabel_eq_C_then {cs : ℚ} (h : abcLabel cs = "C") : 19/20 < cs := by
  by_contra hc
  push_neg at hc
  unfold abcLabel at h
  by_cases h1 : cs ≤ 4/5
  · rw [if_pos h1] at h
    exact absurd h (by decide)
  · rw [if_neg h1, if_pos hc] at h
    exact absurd h (by decide)

theorem abcRows_label (denom : ℚ) :
    ∀ (acc : ℚ) (l : List RevRow) (e : AbcRow), e ∈ abcRows denom acc l →
      e.abc = abcLabel e.cumShare := by
  intro acc l
  induction l generalizing acc with
  | nil =>
    intro e he
    simp [abcRows] at he
  | cons r rest ih =>
    intro e he
    simp only [abcRows, List.mem_cons] at he
    rcases he with he | he
    · subst he
      rfl
    · exact ih (acc + r.revenue) e he

theorem abcRows_map_revenue (denom : ℚ) :
    ∀ (acc : ℚ) (l : List RevRow),
      (abcRows denom acc l).map (fun e => e.revenue) = l.map (fun r => r.revenue) := by
  intro acc l
  induction l generalizing acc with
  | nil => rfl
  | cons r rest ih => simp [abcRows, ih]

theorem classifyAbc_sorted (l : List RevRow) :
    List.Pairwise (fun a b : AbcRow => b.revenue ≤ a.revenue) (classifyAbc l) := by
  have hs : List.Pairwise (fun a b : RevRow => b.revenue ≤ a.revenue)
      (List.insertionSort (fun a b => b.revenue ≤ a.revenue) l) :=
    List.sorted_insertionSort _ l
  have h1 : List.Pairwise (fun x y : ℚ => y ≤ x)
      ((List.insertionSort (fun a b : RevRow => b.revenue ≤ a.revenue) l).map
        (fun r => r.revenue)) :=
    (List.pairwise_map).mpr hs
  rw [← abcRows_map_revenue (max (totalRevenue l) 1) 0] at h1
  exact (List.pairwise_map).mp h1

/-- C3 (amended): `_classify_abc` sorts by descending revenue and labels every
row by the A/B/C thresholds on its cumulative share (computed over
`max(total, 1)`); B and C labels only appear after the cumulative revenue has
crossed 80 (resp. 95) percent of the true total; however the top-revenue
product is labeled A exactly when its own cumulative share is at most 80
percent — a single dominant product can be labeled B or C (see the
counterexample). -/
theorem c3_abc_classification (l : List RevRow) (htot : 0 < totalRevenue l) :
    List.Pairwise (fun a b : AbcRow => b.revenue ≤ a.revenue) (classifyAbc l)
    ∧ (∀ e ∈ classifyAbc l, e.abc = abcLabel e.cumShare)
    ∧ (∀ e ∈ classifyAbc l, e.abc ≠ "A" →
        4/5 * totalRevenue l < e.cumShare * max (totalRevenue l) 1)
    ∧ (∀ e ∈ classifyAbc l, e.abc = "C" →
        19/20 * totalRevenue l < e.cumShare * max (totalRevenue l) 1)
    ∧ (∀ e, (classifyAbc l).head? = some e → (e.abc = "A" ↔ e.cumShare ≤ 4/5)) := by
  have hlab : ∀ e ∈ classifyAbc l, e.abc = abcLabel e.cumShare := by
    intro e he
    exact abcRows_label _ _ _ e he
  have hdenom : totalRevenue l ≤ max (totalRevenue l) 1 := le_max_left _ _
  have hdpos : (0 : ℚ) < max (totalRevenue l) 1 :=
    lt_of_lt_of_le one_pos (le_max_right _ _)
  refine ⟨classifyAbc_sorted l, hlab, ?_, ?_, ?_⟩
  · intro e he hne
    have hcs : 4/5 < e.cumShare := by
      by_contra hc
      push_neg at hc
      exact hne ((hlab e he).trans (abcLabel_eq_A_iff.mpr hc))
    calc 4/5 * totalRevenue l ≤ 4/5 * max (totalRevenue l) 1 :=
          mul_le_mul_of_nonneg_left hdenom (by norm_num)
      _ < e.cumShare * max (totalRevenue l) 1 :=
          mul_lt_mul_of_pos_right hcs hdpos
  · intro e he hC
    have hcs : 19/20 < e.cumShare := abcLabel_eq_C_then ((hlab e he).symm.trans hC)
    calc 19/20 * totalRevenue l ≤ 19/20 * max (totalRevenue l) 1 :=
          mul_le_mul_of_nonneg_left hdenom (by norm_num)
      _ < e.cumShare * max (totalRevenue l) 1 :=
          mul_lt_mul_of_pos_right hcs hdpos
  · intro e he
    have hmem : e ∈ classifyAbc l := by
      cases hcl : classifyAbc l with
      | nil =>
        rw [hcl] at he
        simp at he
      | cons x xs =>
        rw [hcl] at he
        simp only [List.head?_cons, Option.some.injEq] at he
        exact he ▸ List.mem_cons_self x xs
    rw [hlab e hmem]
    exact abcLabel_eq_A_iff

/-- Witness for C3: a 60/40 revenue split has positive total and the
classification is sorted by descending revenue. -/
theorem c3_witness :
    List.Pairwise (fun a b : AbcRow => b.revenue ≤ a.revenue)
      (classifyAbc [⟨1, 60⟩, ⟨2, 40⟩]) :=
  (c3_abc_classification [⟨1, 60⟩, ⟨2, 40⟩] (by norm_num [totalRevenue])).1

/-- Counterexample for C3: a table with a single product holding 100 percent
of the revenue assigns it class C, not class A, because its cumulative share
1 exceeds both thresholds. -/
theorem c3_counterexample :
    0 < totalRevenue [⟨1, 100⟩]
    ∧ (classifyAbc [⟨1, 100⟩]).map (fun e => e.abc) = ["C"] := by
  constructor
  · norm_num [totalRevenue]
  · have hs : List.insertionSort (fun a b : RevRow => b.revenue ≤ a.revenue) [⟨1, 100⟩]
        = [⟨1, 100⟩] := rfl
    have hmax : max (totalRevenue [⟨1, 100⟩]) 1 = 100 := by
      rw [max_eq_left]
      · norm_num [totalRevenue]
      · norm_num [totalRevenue]
    simp only [classifyAbc, hs, hmax, abcRows, List.map_cons, List.map_nil,
      List.cons.injEq, and_true]
    have hcs : ((0 : ℚ) + 100) / 100 = 1 := by norm_num
    rw [hcs, abcLabel]
    norm_num

/-! Lemmas for the recurrence classification. -/

theorem firstPurchase_perm {orders1 orders2 : List Order} (h : orders1.Perm orders2)
    (cid : Nat) : firstPurchase orders1 cid = firstPurchase orders2 cid :=
  min?_eq_of_perm (List.Perm.map _ (List.Perm.filter _ h))

theorem mem_customerTimes {orders : List Order} {u : Order} {cid : Nat}
    (hu : u ∈ orders) (hcid : u.customerId = cid) :
    u.createdAt ∈ customerTimes orders cid :=
  List.mem_map_of_mem _ (List.mem_filter.mpr ⟨hu, by simp [hcid]⟩)

/-- C7: `classify_customer_recurrence` labels an order of the set with
"Novos Clientes" exactly when its timestamp equals the minimum order
timestamp of its customer within the set (equivalently, is at most every
timestamp of that customer), and with "Recorrentes" otherwise; hence orders
tying at the earliest timestamp are all labeled new. -/
theorem c7_recurrence (orders : List Order) (o : Order) (h : o ∈ orders) :
    (customerTypeLabel orders o = "Novos Clientes" ↔
        ∀ u ∈ orders, u.customerId = o.customerId → o.createdAt ≤ u.createdAt)
    ∧ (o, customerTypeLabel orders o) ∈ classifyCustomerRecurrence orders := by
  constructor
  · unfold customerTypeLabel
    by_cases hmin : firstPurchase orders o.customerId = some o.createdAt
    · rw [if_pos hmin]
      constructor
      · intro _
        rw [firstPurchase, int_min?_eq_some_iff] at hmin
        intro u hu hcid
        exact hmin.2 u.createdAt (mem_customerTimes hu hcid)
      · intro _
        rfl
    · rw [if_neg hmin]
      constructor
      · intro hfalse
        exact absurd hfalse (by decide)
      · intro hall
        exfalso
        apply hmin
        rw [firstPurchase, int_min?_eq_some_iff]
        refine ⟨mem_customerTimes h rfl, ?_⟩
        intro b hb
        rcases List.mem_map.mp hb with ⟨u, hu, rfl⟩
        rcases List.mem_filter.mp hu with ⟨huo, hcid⟩
        exact hall u huo (by simpa using hcid)
  · have hperm : (List.insertionSort
        (fun a b : Order => a.createdAt ≤ b.createdAt) orders).Perm orders :=
      List.perm_insertionSort _ _
    have hlabel : customerTypeLabel
        (List.insertionSort (fun a b : Order => a.createdAt ≤ b.createdAt) orders) o
        = customerTypeLabel orders o := by
      unfold customerTypeLabel
      rw [firstPurchase_perm hperm]
    simp only [classifyCustomerRecurrence]
    rw [← hlabel]
    exact List.mem_map_of_mem _ ((List.mem_insertionSort _).mpr h)

/-- Witness for C7: two orders of the same customer share the identical
earliest timestamp 5; both are labeled "Novos Clientes". -/
theorem c7_witness :
    customerTypeLabel
        [⟨1, 7, 1, 5, "pago", 1, 10⟩, ⟨2, 7, 1, 5, "pago", 1, 10⟩]
        ⟨1, 7, 1, 5, "pago", 1, 10⟩ = "Novos Clientes"
    ∧ customerTypeLabel
        [⟨1, 7, 1, 5, "pago", 1, 10⟩, ⟨2, 7, 1, 5, "pago", 1, 10⟩]
        ⟨2, 7, 1, 5, "pago", 1, 10⟩ = "Novos Clientes" := by
  constructor
  · exact ((c7_recurrence
      [⟨1, 7, 1, 5, "pago", 1, 10⟩, ⟨2, 7, 1, 5, "pago", 1, 10⟩]
      ⟨1, 7, 1, 5, "pago", 1, 10⟩ (by decide)).1).mpr (by decide)
  · exact ((c7_recurrence
      [⟨1, 7, 1, 5, "pago", 1, 10⟩, ⟨2, 7, 1, 5, "pago", 1, 10⟩]
      ⟨2, 7, 1, 5, "pago", 1, 10⟩ (by decide)).1).mpr (by decide)

/-! Lemmas for the retry loop and pagination. -/

theorem retryGetAux_attempts_le (oracle : Nat → AttemptResult) :
    ∀ (fuel attemptNo : Nat), (retryGetAux oracle attemptNo fuel).2.1 ≤ attemptNo + fuel := by
  intro fuel
  induction fuel with
  | zero =>
    intro attemptNo
    unfold retryGetAux
    rcases hr : singleGet (oracle attemptNo) with err | v
    · cases err <;> simp
    · simp
  | succ f ih =>
    intro attemptNo
    unfold retryGetAux
    rcases hr : singleGet (oracle attemptNo) with err | v
    · cases err with
      | httpError s =>
        have hnext := ih (attemptNo + 1)
        show (retryGetAux oracle (attemptNo + 1) f).2.1 ≤ attemptNo + (f + 1)
        omega
      | otherError => simp
    · simp

theorem getAllDataLoop_error (e : FetchError) :
    ∀ (ps1 : List (Except FetchError (List Nat))) (acc : List Nat)
      (ps2 : List (Except FetchError (List Nat))),
      (∀ p ∈ ps1, ∃ items, p = .ok items ∧ items ≠ ([] : List Nat)) →
      getAllDataLoop acc (ps1 ++ .error e :: ps2) = .error e := by
  intro ps1
  induction ps1 with
  | nil =>
    intro acc ps2 _
    rfl
  | cons p ps ih =>
    intro acc ps2 hall
    rcases hall p (List.mem_cons_self _ _) with ⟨items, rfl, hne⟩
    simp only [List.cons_append, getAllDataLoop, if_neg hne]
    exact ih _ _ (fun q hq => hall q (List.mem_cons_of_mem _ hq))

/-- C8: a page request is retried only on an HTTP error (a non-HTTP failure
propagates immediately), for at most 5 total attempts; a run of HTTP failures
exhausts the budget after exactly 5 attempts with exponential backoff delays
1, 2, 4, 8 seconds (each delay clamped to the interval from 1 to 10 seconds);
a 429 response is one more HTTP error with the same retry schedule as a 500;
after the budget is exhausted the error propagates, and the pagination loop
of `get_all_data` propagates any page failure, discarding the pages already
accumulated (it either returns a complete sequence or fails). -/
theorem c8_retry_policy (oracle : Nat → AttemptResult) (d : List Nat)
    (acc : List Nat) (ps1 ps2 : List (Except FetchError (List Nat))) (e : FetchError) :
    (retryGet oracle).2.1 ≤ 5
    ∧ (singleGet (oracle 1) = .error .otherError →
        retryGet oracle = (.error .otherError, 1, []))
    ∧ singleGet (.resp 429 d) = .error (.httpError 429)
    ∧ ((∀ n, singleGet (oracle n) = .error (.httpError 500)) →
        retryGet oracle = (.error (.httpError 500), 5, [1, 2, 4, 8]))
    ∧ (retryGet (fun _ => .resp 429 d)).2 = (retryGet (fun _ => .resp 500 d)).2
    ∧ (∀ n, 1 ≤ waitExponential n ∧ waitExponential n ≤ 10)
    ∧ ((∀ p ∈ ps1, ∃ items, p = .ok items ∧ items ≠ ([] : List Nat)) →
        getAllDataLoop acc (ps1 ++ .error e :: ps2) = .error e) := by
  have h01 : max (0 : ℚ) 1 = 1 := max_eq_right zero_le_one
  refine ⟨?_, ?_, rfl, ?_, rfl, ?_, getAllDataLoop_error e ps1 acc ps2⟩
  · exact retryGetAux_attempts_le oracle 4 1
  · intro h
    unfold retryGet retryGetAux
    rw [h]
  · intro h
    unfold retryGet
    unfold retryGetAux
    rw [h 1]
    unfold retryGetAux
    rw [h 2]
    unfold retryGetAux
    rw [h 3]
    unfold retryGetAux
    rw [h 4]
    unfold retryGetAux
    rw [h 5]
    simp only [waitExponential, h01]
    norm_num
  · intro n
    constructor
    · rw [waitExponential, h01]
      exact le_max_left _ _
    · rw [waitExponential, h01]
      exact max_le (by norm_num) (min_le_right _ _)

/-- Witness for C8: a non-HTTP failure on the first attempt propagates with a
single attempt and no backoff; a failing second page aborts the whole fetch,
discarding the items of the successful first page. -/
theorem c8_witness :
    retryGet (fun _ => AttemptResult.exc) = (.error .otherError, 1, [])
    ∧ getAllDataLoop [] ([Except.ok [7]] ++ .error (FetchError.httpError 500) :: [])
        = .error (.httpError 500) := by
  constructor
  · exact (c8_retry_policy (fun _ => AttemptResult.exc) [] [] [] []
      FetchError.otherError).2.1 rfl
  · exact (c8_retry_policy (fun _ => AttemptResult.exc) [] []
      [Except.ok [7]] [] (FetchError.httpError 500)).2.2.2.2.2.2 (by
        intro p hp
        simp only [List.mem_cons, List.not_mem_nil, or_false] at hp
        exact ⟨[7], hp, by simp⟩)

end SouzTech
